import Mathlib

/-!
Shallow embedding of `src/create_excel_template.py`: a straight-line script
that builds a fixed in-memory table (pandas `DataFrame`), writes it as a
formatted spreadsheet (`df.to_excel` through openpyxl) and as a delimited
text file (`df.to_csv`), and prints one confirmation line per file.

Modelling notes, each tied to the source:
* The column dictionary `data` (lines 10-20) is embedded verbatim as an
  ordered list of (name, values) pairs; Python `None` is `PyVal.pnone`.
* pandas dtype inference for the shapes occurring here: a column whose
  values are all `int` gets dtype int64 (`Cell.cint`); a column mixing
  `int` and `None` gets dtype float64, `None` becoming NaN (`Cell.cfloat`
  for the integral float values, `Cell.cnan` for NaN); string columns stay
  object (`Cell.cstr`).
* `df[col].astype(str)` (line 41) stringifies an int64 value as its
  decimal digits, a float64 value with a trailing `.0`, and NaN as `nan`.
* `df.to_csv` (line 48) renders the same way except NaN becomes the empty
  field, applies minimal quoting (only fields holding a delimiter, quote
  or line break are quoted), and separates fields with commas.
* `df.to_excel` (line 28) writes one sheet, header row first, then one
  row per record in column order, NaN as an empty cell; `index=False`
  suppresses the index column.
* The header-format loop (lines 35-37) bolds cell (1, c+1) for every
  column position c; the width loop (lines 40-42) assigns
  `max(len(col) + 2, max stringified length + 2)` to slot `chr(65+idx)`.
* `os.makedirs(templates_dir, exist_ok=True)` (line 7) is modelled as a
  fold over the path's prefixes on an abstract filesystem state:
  an existing directory is kept, an existing non-directory raises, an
  absent entry is created when the process may write and raises otherwise.
-/

namespace CreateExcelTemplate

/-- A Python value occurring in the `data` dictionary (line 10). -/
inductive PyVal where
  | pstr (s : String)
  | pint (n : Int)
  | pnone
deriving DecidableEq

/-- The `data` dictionary of the script (lines 10-20), in its key order. -/
def data : List (String × List PyVal) :=
  [("Website URL",
      [.pstr "example.com", .pstr "blog-example.com", .pstr "multi-example.com"]),
   ("Domain Rating", [.pint 75, .pint 68, .pint 72]),
   ("Website Traffic", [.pint 25000, .pint 18000, .pint 32000]),
   ("Type", [.pstr "guest_post", .pstr "niche_edit", .pstr "both"]),
   ("Guest Post Price", [.pint 350, .pnone, .pint 400]),
   ("Niche Edit Price", [.pnone, .pint 280, .pint 320]),
   ("GP TAT (in days)", [.pint 10, .pnone, .pint 14]),
   ("NE TAT (in days)", [.pnone, .pint 7, .pint 7]),
   ("Guidelines",
      [.pstr "Please provide well-researched content",
       .pstr "No branded anchor text",
       .pstr "Must be related to tech industry"])]

/-- Output directory constant (line 6). -/
def templates_dir : String := "client/public/templates"

/-- Spreadsheet output path (line 26). -/
def excel_path : String := templates_dir ++ "/domains-template.xlsx"

/-- Delimited-text output path (line 47). -/
def csv_path : String := templates_dir ++ "/domains-template.csv"

/-- A cell as stored in the DataFrame after pandas dtype inference:
int64 values, integral float64 values, float64 NaN, or object strings. -/
inductive Cell where
  | cstr (s : String)
  | cint (n : Int)
  | cfloat (n : Int)
  | cnan
deriving DecidableEq

/-- Is the Python value an int? -/
def isIntVal : PyVal → Bool
  | .pint _ => true
  | _ => false

/-- Is the Python value an int or None? -/
def isIntOrNoneVal : PyVal → Bool
  | .pint _ => true
  | .pnone => true
  | _ => false

/-- pandas dtype inference for one column, for the value shapes occurring
in `data`: all ints give int64; ints with None give float64 (None → NaN);
otherwise the column stays object (strings kept, None → NaN). -/
def inferColumn (vs : List PyVal) : List Cell :=
  if vs.all isIntVal then
    vs.map fun v => match v with
      | .pint n => .cint n
      | .pstr s => .cstr s
      | .pnone => .cnan
  else if vs.all isIntOrNoneVal then
    vs.map fun v => match v with
      | .pint n => .cfloat n
      | .pstr s => .cstr s
      | .pnone => .cnan
  else
    vs.map fun v => match v with
      | .pint n => .cint n
      | .pstr s => .cstr s
      | .pnone => .cnan

/-- The DataFrame `df = pd.DataFrame(data)` (line 23): the same ordered
columns, values coerced by dtype inference. -/
def df : List (String × List Cell) := data.map fun c => (c.1, inferColumn c.2)

/-- `str(v)` on a stored cell, as `df[col].astype(str)` produces it
(line 41): int64 as decimal digits, float64 with a trailing `.0`,
NaN as the three characters `nan`. -/
def astype_str : Cell → String
  | .cstr s => s
  | .cint n => toString n
  | .cfloat n => toString n ++ ".0"
  | .cnan => "nan"

/-- How `df.to_csv` renders a stored cell (line 48): like `astype_str`
except that NaN becomes an empty field. -/
def csvCellStr : Cell → String
  | .cnan => ""
  | .cstr s => s
  | .cint n => toString n
  | .cfloat n => toString n ++ ".0"

/-- Minimal-quoting test of the csv writer: a field is quoted only when
it holds the delimiter, a quote character or a line break. -/
def needsQuoting (s : String) : Bool :=
  s.data.any fun c => c = ',' || c = '"' || c = '\n' || c = '\r'

/-- Double every quote character, the csv escaping rule. -/
def escapeQuotes : List Char → List Char
  | [] => []
  | c :: cs =>
      if c = '"' then '"' :: '"' :: escapeQuotes cs else c :: escapeQuotes cs

/-- One rendered csv field with minimal quoting applied. -/
def csvField (s : String) : String :=
  if needsQuoting s then "\"" ++ String.mk (escapeQuotes s.data) ++ "\"" else s

/-- The ordered column names, `df.columns` (lines 35 and 40). -/
def columns : List String := df.map fun c => c.1

/-- Number of records: the common length of the column value sequences. -/
def nrows : Nat := (data.getD 0 ("", [])).2.length

/-- A spreadsheet cell: `none` is an empty cell (how `to_excel` writes
NaN), `some c` holds the stored value. -/
def toCellOpt : Cell → Option Cell
  | .cnan => none
  | c => some c

/-- Row 1 of the sheet: the headers, written by `to_excel` with
`index=False` (line 28). -/
def headerRow : List (Option Cell) := columns.map fun n => some (.cstr n)

/-- Data row `i` of the sheet (0-based over the records), aligned to the
column order. -/
def dataRow (i : Nat) : List (Option Cell) :=
  df.map fun c => toCellOpt (c.2.getD i .cnan)

/-- All data rows, written by `to_excel` below the header. -/
def dataRows : List (List (Option Cell)) := (List.range nrows).map dataRow

/-- The header-format loop (lines 35-37): for every column position
`col_num`, cell (row 1, column `col_num`+1) gets a bold font. -/
def boldCells : List (Nat × Nat) :=
  (List.range columns.length).map fun i => (1, i + 1)

/-- Largest stringified length over a column's cells, i.e.
`df[col].astype(str).map(len).max()` (line 41). -/
def maxCellStrLen (cells : List Cell) : Nat :=
  (cells.map fun c => (astype_str c).length).foldl max 0

/-- The width computed at line 41:
`max(len(col) + 2, df[col].astype(str).map(len).max() + 2)`. -/
def column_width (name : String) (cells : List Cell) : Nat :=
  max (name.length + 2) (maxCellStrLen cells + 2)

/-- The width loop (lines 40-42): slot `chr(65 + idx)` receives the
computed width of column `idx`. -/
def colWidths : List (Char × Nat) :=
  df.enum.map fun p => (Char.ofNat (65 + p.1), column_width p.2.1 p.2.2)

/-- The single worksheet produced by the `ExcelWriter` block
(lines 27-42): grid rows, bolded cells, and per-slot widths. -/
structure Worksheet where
  sheetRows : List (List (Option Cell))
  bolded : List (Nat × Nat)
  widths : List (Char × Nat)
deriving DecidableEq

/-- The workbook: named sheets in order. -/
structure Workbook where
  sheets : List (String × Worksheet)
deriving DecidableEq

/-- The worksheet the script builds. -/
def worksheet : Worksheet :=
  { sheetRows := headerRow :: dataRows, bolded := boldCells, widths := colWidths }

/-- The workbook the script saves to `excel_path`: a single sheet named
`Domains Template` (line 28). -/
def workbook : Workbook := { sheets := [("Domains Template", worksheet)] }

/-- The csv header line: column names, minimally quoted, comma-joined. -/
def csvHeaderLine : String := String.intercalate "," (columns.map csvField)

/-- Csv line of record `i`: rendered fields in column order. -/
def csvDataLine (i : Nat) : String :=
  String.intercalate "," (df.map fun c => csvField (csvCellStr (c.2.getD i .cnan)))

/-- All lines of the file `df.to_csv(csv_path, index=False)` writes
(line 48): header first, then one line per record. -/
def csvLines : List String := csvHeaderLine :: (List.range nrows).map csvDataLine

/-- The rendered fields of csv column `idx`, in record order. -/
def csvColumnFields (idx : Nat) : List String :=
  ((df.getD idx ("", [])).2).map fun c => csvField (csvCellStr c)

/-- Splitting a line at every comma, the parse the claims read the csv
back with. Auxiliary recursion over the characters. -/
def splitCommaAux : List Char → List Char → List String
  | [], acc => [String.mk acc.reverse]
  | c :: cs, acc =>
      if c = ',' then String.mk acc.reverse :: splitCommaAux cs []
      else splitCommaAux cs (c :: acc)

/-- Split a string on commas. -/
def splitOnComma (s : String) : List String := splitCommaAux s.data []

/-- String value of a spreadsheet cell: empty for an empty cell,
otherwise the stored value rendered like the csv writer renders it. -/
def sheetCellStr : Option Cell → String
  | none => ""
  | some c => csvCellStr c

/-- The two confirmation lines the script prints (lines 44 and 49),
each an f-string ending in the output path. -/
def consoleOutput : List String :=
  ["Excel template created successfully at " ++ excel_path,
   "CSV template created successfully at " ++ csv_path]

/-- State of one path in the filesystem model: missing, a directory,
or a non-directory file. -/
inductive PathState where
  | absent
  | isDir
  | isFile
deriving DecidableEq

/-- A filesystem assigns a state to every path (a list of components). -/
def FS : Type := List String → PathState

/-- The failure modes `os.makedirs` surfaces in this model: a path
component exists as a non-directory, or the process may not write. -/
inductive MakedirsError where
  | fileExists
  | permissionDenied
deriving DecidableEq

/-- One `mkdir` attempt with the `exist_ok=True` tolerance of line 7:
an existing directory is accepted unchanged, an existing non-directory
raises, an absent entry is created when the process may write and
raises a permission error otherwise. -/
def mkdirStep (writable : Bool) (fs : FS) (p : List String) : Except MakedirsError FS :=
  match fs p with
  | .isDir => .ok fs
  | .isFile => .error .fileExists
  | .absent =>
      if writable then .ok (fun q => if q = p then .isDir else fs q)
      else .error .permissionDenied

/-- The non-empty leading component lists of a path, shortest first:
the parents `os.makedirs` creates on the way down, then the path. -/
def prefixes : List String → List (List String)
  | [] => []
  | x :: xs => [x] :: (prefixes xs).map (x :: ·)

/-- Run `mkdir` attempts left to right, stopping at the first error. -/
def makedirsAux (writable : Bool) (fs : FS) : List (List String) → Except MakedirsError FS
  | [] => .ok fs
  | p :: ps =>
      match mkdirStep writable fs p with
      | .ok fs1 => makedirsAux writable fs1 ps
      | .error e => .error e

/-- `os.makedirs(path, exist_ok=True)` (line 7): ensure every leading
component list of `path` is a directory, creating the missing ones. -/
def makedirs (writable : Bool) (path : List String) (fs : FS) : Except MakedirsError FS :=
  makedirsAux writable fs (prefixes path)

/-- The component list of `templates_dir = "client/public/templates"`. -/
def templatesDirPath : List String := ["client", "public", "templates"]

/-- One example record, read off the DataFrame with its semantic types:
the view the data-model claims speak about. -/
structure TemplateRow where
  websiteUrl : String
  domainRating : Int
  websiteTraffic : Int
  listingType : String
  guestPostPrice : Option Int
  nicheEditPrice : Option Int
  gpTat : Option Int
  neTat : Option Int
  guidelines : String
deriving DecidableEq

/-- Numeric cell of column `colIdx`, record `i`, as an optional integer:
NaN (the absence marker) is `none`. -/
def optIntAt (colIdx i : Nat) : Option Int :=
  match (df.getD colIdx ("", [])).2.getD i .cnan with
  | .cint n => some n
  | .cfloat n => some n
  | _ => none

/-- String cell of column `colIdx`, record `i`. -/
def strAt (colIdx i : Nat) : String :=
  match (df.getD colIdx ("", [])).2.getD i .cnan with
  | .cstr s => s
  | _ => ""

/-- Required numeric cell of column `colIdx`, record `i`. -/
def intAt (colIdx i : Nat) : Int := (optIntAt colIdx i).getD 0

/-- Record `i` of the sample data as a typed row. -/
def templateRow (i : Nat) : TemplateRow :=
  { websiteUrl := strAt 0 i
    domainRating := intAt 1 i
    websiteTraffic := intAt 2 i
    listingType := strAt 3 i
    guestPostPrice := optIntAt 4 i
    nicheEditPrice := optIntAt 5 i
    gpTat := optIntAt 6 i
    neTat := optIntAt 7 i
    guidelines := strAt 8 i }

/-- The Type/price consistency convention of the sample data: a
`guest_post` row carries the guest-post price and TAT and no niche-edit
fields, a `niche_edit` row the reverse, and a `both` row all four. -/
def rowConsistent (r : TemplateRow) : Bool :=
  (r.listingType != "guest_post" ||
    (r.guestPostPrice.isSome && r.gpTat.isSome &&
     r.nicheEditPrice.isNone && r.neTat.isNone)) &&
  (r.listingType != "niche_edit" ||
    (r.nicheEditPrice.isSome && r.neTat.isSome &&
     r.guestPostPrice.isNone && r.gpTat.isNone)) &&
  (r.listingType != "both" ||
    (r.guestPostPrice.isSome && r.nicheEditPrice.isSome &&
     r.gpTat.isSome && r.neTat.isSome))

theorem makedirsAux_ok_of_noFile (ps : List (List String)) (fs : FS)
    (h : ∀ p ∈ ps, fs p ≠ PathState.isFile) :
    ∃ fs2, makedirsAux true fs ps = Except.ok fs2 ∧
      (∀ p ∈ ps, fs2 p = PathState.isDir) ∧ ∀ q, q ∉ ps → fs2 q = fs q := by
  induction ps generalizing fs with
  | nil => exact ⟨fs, rfl, by simp, fun q _ => rfl⟩
  | cons p ps ih =>
    have hp := h p (List.mem_cons_self p ps)
    cases hfp : fs p with
    | isFile => exact absurd hfp hp
    | isDir =>
      have hstep : makedirsAux true fs (p :: ps) = makedirsAux true fs ps := by
        simp [makedirsAux, mkdirStep, hfp]
      obtain ⟨fs2, hrun, hdir, hout⟩ := ih fs (fun q hq => h q (List.mem_cons_of_mem _ hq))
      refine ⟨fs2, hstep ▸ hrun, ?_, ?_⟩
      · intro q hq
        rcases List.mem_cons.mp hq with rfl | hq'
        · by_cases hmem : q ∈ ps
          · exact hdir q hmem
          · rw [hout q hmem]; exact hfp
        · exact hdir q hq'
      · intro q hq
        exact hout q (fun hmem => hq (List.mem_cons_of_mem _ hmem))
    | absent =>
      have hstep : makedirsAux true fs (p :: ps) =
          makedirsAux true (fun q => if q = p then PathState.isDir else fs q) ps := by
        simp [makedirsAux, mkdirStep, hfp]
      have h1 : ∀ q ∈ ps,
          (fun q => if q = p then PathState.isDir else fs q) q ≠ PathState.isFile := by
        intro q hq
        by_cases hqp : q = p
        · simp [hqp]
        · simp only [if_neg hqp]
          exact h q (List.mem_cons_of_mem _ hq)
      obtain ⟨fs2, hrun, hdir, hout⟩ := ih _ h1
      refine ⟨fs2, hstep ▸ hrun, ?_, ?_⟩
      · intro q hq
        rcases List.mem_cons.mp hq with rfl | hq'
        · by_cases hmem : q ∈ ps
          · exact hdir q hmem
          · rw [hout q hmem]; simp
        · exact hdir q hq'
      · intro q hq
        have hq1 : q ∉ ps := fun hmem => hq (List.mem_cons_of_mem _ hmem)
        have hqp : q ≠ p := fun hqp => hq (hqp ▸ List.mem_cons_self p ps)
        rw [hout q hq1]
        simp [if_neg hqp]

theorem makedirsAux_noop (w : Bool) (ps : List (List String)) (fs : FS)
    (h : ∀ p ∈ ps, fs p = PathState.isDir) :
    makedirsAux w fs ps = Except.ok fs := by
  induction ps with
  | nil => rfl
  | cons p ps ih =>
    have hstep : makedirsAux w fs (p :: ps) = makedirsAux w fs ps := by
      simp [makedirsAux, mkdirStep, h p (List.mem_cons_self p ps)]
    rw [hstep]
    exact ih (fun q hq => h q (List.mem_cons_of_mem _ hq))

/-- Claim C1: the saved workbook has exactly one sheet, named
`Domains Template`; its grid has exactly 4 rows (one header row plus the
3 data rows) and every row has exactly 9 entries; the source table has
9 columns and every column sequence has one entry per Template Row. -/
theorem workbook_shape :
    workbook.sheets.map Prod.fst = ["Domains Template"] ∧
    workbook.sheets.length = 1 ∧
    worksheet.sheetRows.length = 4 ∧
    worksheet.sheetRows.map List.length = [9, 9, 9, 9] ∧
    data.length = 9 ∧
    data.map (fun c => c.2.length) = [3, 3, 3, 3, 3, 3, 3, 3, 3] := by decide

/-- Claim C2: for every column index, the width applied to that column's
slot (letter `chr(65+idx)`) equals `max(header length, largest
stringified cell length) + 2`; in particular the `Guidelines` slot is at
least `len "Guidelines" + 2` wide and at least as wide as every
guideline text length plus 2. -/
theorem column_widths_spec :
    ((List.range 9).all fun idx =>
      List.lookup (Char.ofNat (65 + idx)) worksheet.widths ==
        some (max ((df.getD idx ("", [])).1.length)
                  (maxCellStrLen (df.getD idx ("", [])).2) + 2)) = true ∧
    "Guidelines".length + 2 ≤ (List.lookup 'I' worksheet.widths).getD 0 ∧
    (((df.getD 8 ("", [])).2).map astype_str).all
      (fun s => decide (s.length + 2 ≤ (List.lookup 'I' worksheet.widths).getD 0)) = true := by
  decide

/-- Claim C4: splitting every line of the delimited output on commas
yields, row for row and column for column, exactly the string values of
the spreadsheet's rows; moreover a source entry is the absence marker
exactly when the spreadsheet cell is empty, and exactly when the
delimited field is empty. -/
theorem csv_matches_sheet :
    csvLines.length = worksheet.sheetRows.length ∧
    csvLines.map splitOnComma = worksheet.sheetRows.map (List.map sheetCellStr) ∧
    ((List.range 9).all fun j => (List.range 3).all fun i =>
      (((data.getD j ("", [])).2.getD i PyVal.pnone == PyVal.pnone) ==
        ((worksheet.sheetRows.getD (i + 1) []).getD j (some Cell.cnan) == none))) = true ∧
    ((List.range 9).all fun j => (List.range 3).all fun i =>
      (((data.getD j ("", [])).2.getD i PyVal.pnone == PyVal.pnone) ==
        ((splitOnComma (csvLines.getD (i + 1) "x")).getD j "x" == ""))) = true := by
  decide

/-- Claim C5: row 1 of the sheet holds the nine headers in their fixed
order (so entry 1 is `Website URL` and entry 9 is `Guidelines`), and the
formatting loop bolds every one of the nine header cells. -/
theorem header_row_bold :
    worksheet.sheetRows.getD 0 [] =
      [some (.cstr "Website URL"), some (.cstr "Domain Rating"),
       some (.cstr "Website Traffic"), some (.cstr "Type"),
       some (.cstr "Guest Post Price"), some (.cstr "Niche Edit Price"),
       some (.cstr "GP TAT (in days)"), some (.cstr "NE TAT (in days)"),
       some (.cstr "Guidelines")] ∧
    ((List.range 9).all fun j => worksheet.bolded.contains (1, j + 1)) = true ∧
    worksheet.bolded.length = 9 := by decide

/-- Claim C6: the first data row (sheet row 2, `example.com`) holds
Domain Rating 75, Website Traffic 25000, Type `guest_post`, Guest Post
Price 350, an absent Niche Edit Price, GP TAT 10 and an absent NE TAT. -/
theorem row2_values :
    worksheet.sheetRows.getD 1 [] =
      [some (.cstr "example.com"), some (.cint 75), some (.cint 25000),
       some (.cstr "guest_post"), some (.cfloat 350), none, some (.cfloat 10), none,
       some (.cstr "Please provide well-researched content")] := by decide

/-- Claim C7: every sample row satisfies the Type/price consistency
convention, and the `both` row (`multi-example.com`) carries Guest Post
Price 400, Niche Edit Price 320, GP TAT 14 and NE TAT 7. -/
theorem type_price_consistency :
    ((List.range nrows).map templateRow).all rowConsistent = true ∧
    ((List.range nrows).map templateRow).map (fun r => r.listingType) =
      ["guest_post", "niche_edit", "both"] ∧
    templateRow 2 =
      { websiteUrl := "multi-example.com", domainRating := 72, websiteTraffic := 32000,
        listingType := "both", guestPostPrice := some 400, nicheEditPrice := some 320,
        gpTat := some 14, neTat := some 7,
        guidelines := "Must be related to tech industry" } := by decide

/-- Claim C8: ensuring the output directory creates the destination and
all missing parents when no component exists as a plain file (and leaves
every other path untouched); it is a no-op when the directory already
exists; it fails with a file-exists error when the path itself is a
plain file, and with a permission error when the process may not write
and something remains to create. -/
theorem makedirs_spec (fs : FS) :
    ((∀ p ∈ prefixes templatesDirPath, fs p ≠ PathState.isFile) →
      ∃ fs2, makedirs true templatesDirPath fs = Except.ok fs2 ∧
        (∀ p ∈ prefixes templatesDirPath, fs2 p = PathState.isDir) ∧
        ∀ q, q ∉ prefixes templatesDirPath → fs2 q = fs q) ∧
    (∀ w : Bool, (∀ p ∈ prefixes templatesDirPath, fs p = PathState.isDir) →
      makedirs w templatesDirPath fs = Except.ok fs) ∧
    (fs ["client"] ≠ PathState.isFile → fs ["client", "public"] ≠ PathState.isFile →
      fs templatesDirPath = PathState.isFile →
      makedirs true templatesDirPath fs = Except.error MakedirsError.fileExists) ∧
    ((∀ p ∈ prefixes templatesDirPath, fs p ≠ PathState.isFile) →
      fs templatesDirPath ≠ PathState.isDir →
      makedirs false templatesDirPath fs = Except.error MakedirsError.permissionDenied) := by
  refine ⟨fun h => makedirsAux_ok_of_noFile _ fs h,
          fun w h => makedirsAux_noop w _ fs h, ?_, ?_⟩
  · intro h1 h2 h3
    simp only [templatesDirPath] at h3
    cases hs1 : fs ["client"] with
    | isFile => exact absurd hs1 h1
    | isDir =>
      cases hs2 : fs ["client", "public"] with
      | isFile => exact absurd hs2 h2
      | isDir => simp [makedirs, templatesDirPath, prefixes, makedirsAux, mkdirStep, hs1, hs2, h3]
      | absent => simp [makedirs, templatesDirPath, prefixes, makedirsAux, mkdirStep, hs1, hs2, h3]
    | absent =>
      cases hs2 : fs ["client", "public"] with
      | isFile => exact absurd hs2 h2
      | isDir => simp [makedirs, templatesDirPath, prefixes, makedirsAux, mkdirStep, hs1, hs2, h3]
      | absent => simp [makedirs, templatesDirPath, prefixes, makedirsAux, mkdirStep, hs1, hs2, h3]
  · intro h1 h2
    have hf1 : fs ["client"] ≠ PathState.isFile :=
      h1 _ (by simp [templatesDirPath, prefixes])
    have hf2 : fs ["client", "public"] ≠ PathState.isFile :=
      h1 _ (by simp [templatesDirPath, prefixes])
    have hf3 : fs ["client", "public", "templates"] ≠ PathState.isFile :=
      h1 _ (by simp [templatesDirPath, prefixes])
    simp only [templatesDirPath] at h2
    cases hs1 : fs ["client"] with
    | isFile => exact absurd hs1 hf1
    | absent => simp [makedirs, templatesDirPath, prefixes, makedirsAux, mkdirStep, hs1]
    | isDir =>
      cases hs2 : fs ["client", "public"] with
      | isFile => exact absurd hs2 hf2
      | absent => simp [makedirs, templatesDirPath, prefixes, makedirsAux, mkdirStep, hs1, hs2]
      | isDir =>
        cases hs3 : fs ["client", "public", "templates"] with
        | isFile => exact absurd hs3 hf3
        | isDir => exact absurd hs3 h2
        | absent =>
          simp [makedirs, templatesDirPath, prefixes, makedirsAux, mkdirStep, hs1, hs2, hs3]

/-- Witness for claim C8: starting from an entirely absent filesystem,
`makedirs` succeeds, every component of the output directory ends up a
directory, and every other path is untouched. -/
theorem makedirs_spec_witness :
    ∃ fs2, makedirs true templatesDirPath (fun _ => PathState.absent) = Except.ok fs2 ∧
      (∀ p ∈ prefixes templatesDirPath, fs2 p = PathState.isDir) ∧
      ∀ q, q ∉ prefixes templatesDirPath → fs2 q = (fun _ => PathState.absent) q :=
  (makedirs_spec (fun _ => PathState.absent)).1 (by intro p _; simp)

/-- Claim C9: the script prints exactly one confirmation line per
produced file, the first ending in the spreadsheet path and the second
in the delimited-text path, and those paths are the fixed literals
`client/public/templates/domains-template.xlsx` and
`client/public/templates/domains-template.csv`. -/
theorem console_output_spec :
    consoleOutput.length = 2 ∧
    excel_path.data.isSuffixOf (consoleOutput.getD 0 "").data = true ∧
    csv_path.data.isSuffixOf (consoleOutput.getD 1 "").data = true ∧
    excel_path = "client/public/templates/domains-template.xlsx" ∧
    csv_path = "client/public/templates/domains-template.csv" := by decide

/-- Claim C10: in the delimited output the four optional columns are
float-rendered — every present value carries a trailing `.0` and absence
markers are empty — while Domain Rating and Website Traffic are rendered
as plain integers. -/
theorem optional_columns_float_rendering :
    csvColumnFields 4 = ["350.0", "", "400.0"] ∧
    csvColumnFields 5 = ["", "280.0", "320.0"] ∧
    csvColumnFields 6 = ["10.0", "", "14.0"] ∧
    csvColumnFields 7 = ["", "7.0", "7.0"] ∧
    csvColumnFields 1 = ["75", "68", "72"] ∧
    csvColumnFields 2 = ["25000", "18000", "32000"] ∧
    ([4, 5, 6, 7].all fun j =>
      (csvColumnFields j).all fun s => s.isEmpty || ".0".data.isSuffixOf s.data) = true := by
  decide

end CreateExcelTemplate
